import Mathlib

/-!
Verification of the BR/EDR pairing state machine in
`src/connectivity/bluetooth/core/bt-host/gap/pairing_state.cc`.

The C++ code is shallowly embedded: the pure decision functions become Lean
functions with the same names, and each `PairingState` member function becomes
a function from the machine state (plus the inputs the C++ code reads from its
collaborators: the pairing delegate, the link, the security-properties map) to
an optional result.  A `none` result models a `ZX_ASSERT` failure or a null
dereference, i.e. a process abort; `some (m, effects, ...)` is a normal return
together with the ordered list of observable callback invocations.
-/

set_option genInjectivity false
set_option genSizeOf false
set_option genSizeOfSpec false

namespace BtGap

/-- HCI IO capability values (hci-spec; the capability set of §4.2). -/
inductive IOCapability
  | kDisplayOnly
  | kDisplayYesNo
  | kKeyboardOnly
  | kNoInputNoOutput
  deriving DecidableEq

/-- `PairingAction` enum from `pairing_state.h` (declared in the spec §3). -/
inductive PairingAction
  | kAutomatic
  | kDisplayPasskey
  | kComparePasskey
  | kGetConsent
  | kRequestPasskey
  deriving DecidableEq

/-- `PairingState::State` from `pairing_state.h` (spec §4.1 lists the states;
the `.cc` `ToString` at lines 397-427 names all twelve). -/
inductive State
  | kIdle
  | kInitiatorPairingStarted
  | kInitiatorWaitIoCapResponse
  | kResponderWaitIoCapRequest
  | kWaitUserConfirmationRequest
  | kWaitUserPasskeyRequest
  | kWaitUserPasskeyNotification
  | kWaitPairingComplete
  | kWaitLinkKey
  | kInitiatorWaitAuthComplete
  | kWaitEncryption
  | kFailed
  deriving DecidableEq

/-- `PairingState::InitiatorAction` return value of `InitiatePairing`. -/
inductive InitiatorAction
  | kDoNotSendAuthenticationRequest
  | kSendAuthenticationRequest

/-- HCI event codes (hci-spec constants referenced at lines 431-436 and
513-523; the numeric values are the Bluetooth HCI event codes). -/
def kUserConfirmationRequestEventCode : Nat := 0x33

/-- HCI User Passkey Request event code. -/
def kUserPasskeyRequestEventCode : Nat := 0x34

/-- HCI User Passkey Notification event code. -/
def kUserPasskeyNotificationEventCode : Nat := 0x3B

/-- `GetInitiatorPairingAction` (pairing_state.cc lines 479-499). -/
def GetInitiatorPairingAction (initiator_cap responder_cap : IOCapability) :
    PairingAction :=
  if initiator_cap = .kNoInputNoOutput then
    .kAutomatic
  else if responder_cap = .kNoInputNoOutput then
    (if initiator_cap = .kDisplayYesNo then .kGetConsent else .kAutomatic)
  else if initiator_cap = .kKeyboardOnly then
    .kRequestPasskey
  else if responder_cap = .kDisplayOnly then
    (if initiator_cap = .kDisplayYesNo then .kComparePasskey else .kAutomatic)
  else
    .kDisplayPasskey

/-- `GetResponderPairingAction` (pairing_state.cc lines 501-511). -/
def GetResponderPairingAction (initiator_cap responder_cap : IOCapability) :
    PairingAction :=
  if initiator_cap = .kNoInputNoOutput ∧ responder_cap = .kKeyboardOnly then
    .kGetConsent
  else if initiator_cap = .kDisplayYesNo ∧ responder_cap = .kDisplayYesNo then
    .kComparePasskey
  else
    GetInitiatorPairingAction responder_cap initiator_cap

/-- `GetExpectedEvent` (pairing_state.cc lines 513-524). -/
def GetExpectedEvent (local_cap peer_cap : IOCapability) : Nat :=
  if local_cap = .kNoInputNoOutput ∨ peer_cap = .kNoInputNoOutput then
    kUserConfirmationRequestEventCode
  else if local_cap = .kKeyboardOnly then
    kUserPasskeyRequestEventCode
  else if peer_cap = .kKeyboardOnly then
    kUserPasskeyNotificationEventCode
  else
    kUserConfirmationRequestEventCode

/-- `IsPairingAuthenticated` (pairing_state.cc lines 526-537). -/
def IsPairingAuthenticated (local_cap peer_cap : IOCapability) : Bool :=
  if local_cap = .kNoInputNoOutput ∨ peer_cap = .kNoInputNoOutput then
    false
  else if local_cap = .kDisplayYesNo ∧ peer_cap = .kDisplayYesNo then
    true
  else if local_cap = .kKeyboardOnly ∨ peer_cap = .kKeyboardOnly then
    true
  else
    false

/-- `PairingState::GetStateForPairingEvent` (pairing_state.cc lines 429-441). -/
def GetStateForPairingEvent (event_code : Nat) : State :=
  if event_code = kUserConfirmationRequestEventCode then
    .kWaitUserConfirmationRequest
  else if event_code = kUserPasskeyRequestEventCode then
    .kWaitUserPasskeyRequest
  else if event_code = kUserPasskeyNotificationEventCode then
    .kWaitUserPasskeyNotification
  else
    .kFailed

/-- `HostError` values the pairing machine uses (spec §7 taxonomy). -/
inductive HostError
  | kNotReady
  | kCanceled
  | kNotSupported
  | kFailed
  | kInsufficientSecurity

/-- `hci::Status`: success, a raw HCI error code, or a host error.  The C++
type is truthy exactly when it is a success. -/
inductive Status
  | success
  | hciError (code : Nat)
  | hostError (e : HostError)

/-- Truthiness of `hci::Status` (`if (status)` in the C++). -/
def Status.isSuccess : Status → Bool
  | .success => true
  | _ => false

/-- `hci::Status(status_code)`: success iff the HCI status code is 0. -/
def statusOf (status_code : Nat) : Status :=
  if status_code = 0 then .success else .hciError status_code

/-- `hci::LinkKeyType` values (hci-spec header, not under src; the `.cc` names
`kDebugCombination` and `kChangedCombination` and the rest are the standard
HCI link key types). -/
inductive LinkKeyType
  | kCombination
  | kLocalUnit
  | kRemoteUnit
  | kDebugCombination
  | kUnauthenticatedCombination192
  | kAuthenticatedCombination192
  | kChangedCombination
  | kUnauthenticatedCombination256
  | kAuthenticatedCombination256
  deriving DecidableEq

/-- `sm::SecurityLevel` values read by `OnLinkKeyNotification`. -/
inductive SecurityLevel
  | kNoSecurity
  | kEncrypted
  | kAuthenticated
  deriving DecidableEq

/-- `sm::SecurityProperties` as the machine reads it: an authenticated flag
and a security level (spec §3: "maps a reported link-key type to
(authenticated?, security level)"). -/
structure SecurityProperties where
  authenticated : Bool
  level : SecurityLevel

/-- Modelled from the spec: the `sm::SecurityProperties(hci::LinkKeyType)`
constructor lives in the sm library, which is not under src, so the machine is
parameterized over the mapping (`secProps` argument of
`OnLinkKeyNotification`).  This is one concrete instantiation for witnesses,
respecting the one constraint stated in the spec and in the `.cc` comments:
legacy link-key types carry no security. -/
def secPropsW : LinkKeyType → SecurityProperties
  | .kCombination => ⟨false, .kNoSecurity⟩
  | .kLocalUnit => ⟨false, .kNoSecurity⟩
  | .kRemoteUnit => ⟨false, .kNoSecurity⟩
  | .kDebugCombination => ⟨false, .kEncrypted⟩
  | .kUnauthenticatedCombination192 => ⟨false, .kEncrypted⟩
  | .kAuthenticatedCombination192 => ⟨true, .kAuthenticated⟩
  | .kChangedCombination => ⟨false, .kEncrypted⟩
  | .kUnauthenticatedCombination256 => ⟨false, .kEncrypted⟩
  | .kAuthenticatedCombination256 => ⟨true, .kAuthenticated⟩

/-- Which status callback an invocation went to: the fixed top-level
`status_callback_` set at construction, or one of the queued
`initiator_callbacks` (identified by the tag the caller passed in). -/
inductive Signal
  | statusCallback
  | initiatorCallback (cb : Nat)

/-- `PairingDelegate::DisplayMethod`. -/
inductive DisplayMethod
  | kComparison
  | kPeerEntry

/-- One observable callback invocation made by a handler, in program order:
status-callback invocations (with the connection handle and status they were
passed), the immediate replies on the HCI event callbacks, and the requests
issued to the pairing delegate (whose own completion callbacks are
asynchronous and out of scope). -/
inductive Effect
  | status (sig : Signal) (handle : Nat) (st : Status)
  | confirmationReply (accept : Bool)
  | passkeyReply (passkey : Option Nat)
  | delegateDisplayPasskey (peer_id : Nat) (numeric_value : Nat)
      (method : DisplayMethod)
  | delegateConfirmPairing (peer_id : Nat)
  | delegateRequestPasskey (peer_id : Nat)
  | delegateCompletePairing (peer_id : Nat) (ok : Bool)

/-- `PairingState::Pairing` (declared in pairing_state.h; spec §3).  Fields
that C++ leaves uninitialized until a later event are `Option`s; handlers that
would read such a field before it is set abort (model of undefined behavior,
unreachable on legal paths). -/
structure Pairing where
  initiator : Bool
  local_iocap : Option IOCapability
  peer_iocap : Option IOCapability
  action : Option PairingAction
  expected_event : Option Nat
  authenticated : Option Bool
  security_properties : Option SecurityProperties
  initiator_callbacks : List Nat

/-- `Pairing::MakeInitiator` (pairing_state.cc lines 363-370). -/
def Pairing.MakeInitiator (status_callback : Nat) : Pairing :=
  { initiator := true
    local_iocap := none
    peer_iocap := none
    action := none
    expected_event := none
    authenticated := none
    security_properties := none
    initiator_callbacks := [status_callback] }

/-- `Pairing::MakeResponder` (pairing_state.cc lines 372-379). -/
def Pairing.MakeResponder (peer_iocap : IOCapability) : Pairing :=
  { initiator := false
    local_iocap := none
    peer_iocap := some peer_iocap
    action := none
    expected_event := none
    authenticated := none
    security_properties := none
    initiator_callbacks := [] }

/-- `Pairing::ComputePairingData` (pairing_state.cc lines 381-395). -/
def Pairing.ComputePairingData (p : Pairing) : Option Pairing :=
  match p.local_iocap, p.peer_iocap with
  | some lc, some pc =>
      some { p with
        action := some (if p.initiator then GetInitiatorPairingAction lc pc
                        else GetResponderPairingAction pc lc)
        expected_event := some (GetExpectedEvent lc pc)
        authenticated := some (IsPairingAuthenticated lc pc) }
  | _, _ => none

/-- The mutable state of one `PairingState` object, together with the part of
the link it reads and writes (the stored BR/EDR link key). -/
structure PairingState where
  peer_id : Nat
  handle : Nat
  state : State
  current_pairing : Option Pairing
  link_ltk : Option (Nat × LinkKeyType)

/-- `PairingState::is_pairing()`. -/
def PairingState.is_pairing (m : PairingState) : Bool :=
  m.current_pairing.isSome

/-- `PairingState::initiator()`: pairing in progress with the initiator role. -/
def PairingState.initiator (m : PairingState) : Bool :=
  match m.current_pairing with
  | some p => p.initiator
  | none => false

/-- The queued initiator callbacks of the current pairing, if any. -/
def pairingCallbacks (m : PairingState) : List Nat :=
  match m.current_pairing with
  | some p => p.initiator_callbacks
  | none => []

/-- The invocation list `SignalStatus` produces: the fixed top-level callback
first, then each queued initiator callback in arrival order, every one with
the identical handle and status. -/
def signalEffects (handle : Nat) (cbs : List Nat) (st : Status) : List Effect :=
  Effect.status .statusCallback handle st ::
    cbs.map fun cb => Effect.status (.initiatorCallback cb) handle st

/-- `PairingState::SignalStatus` (pairing_state.cc lines 443-459): swap the
queued callbacks out of the current Pairing, destroy the Pairing, capture the
handle, then invoke the top-level callback and each queued callback. -/
def SignalStatus (st : Status) (m : PairingState) :
    PairingState × List Effect :=
  let callbacks_to_signal := pairingCallbacks m
  ({ m with current_pairing := none },
   signalEffects m.handle callbacks_to_signal st)

/-- `PairingState::EnableEncryption` (pairing_state.cc lines 461-470): if the
link refuses to start encryption, invoke only the top-level status callback
with a generic failure and enter `kFailed` (the current Pairing is left in
place); otherwise park in `kWaitEncryption`. -/
def EnableEncryption (start_encryption_ok : Bool) (m : PairingState) :
    PairingState × List Effect :=
  if ¬ start_encryption_ok then
    ({ m with state := .kFailed },
     [.status .statusCallback m.handle (.hostError .kFailed)])
  else
    ({ m with state := .kWaitEncryption }, [])

/-- `PairingState::FailWithUnexpectedEvent` (pairing_state.cc lines 472-477). -/
def FailWithUnexpectedEvent (m : PairingState) : PairingState × List Effect :=
  SignalStatus (.hostError .kNotSupported) { m with state := .kFailed }

/-- `PairingState::InitiatePairing` (pairing_state.cc lines 32-66).
`delegate_present` is whether `pairing_delegate()` is non-null; `cb` tags the
caller's status callback. -/
def InitiatePairing (delegate_present : Bool) (cb : Nat) (m : PairingState) :
    Option (PairingState × List Effect × InitiatorAction) :=
  if ¬ delegate_present then
    some (m, [.status (.initiatorCallback cb) m.handle (.hostError .kNotReady)],
          .kDoNotSendAuthenticationRequest)
  else if m.state = .kIdle then
    if m.is_pairing then none
    else
      some ({ m with current_pairing := some (Pairing.MakeInitiator cb)
                     state := .kInitiatorPairingStarted },
            [], .kSendAuthenticationRequest)
  else if m.is_pairing then
    some ({ m with current_pairing := m.current_pairing.map fun p =>
              { p with initiator_callbacks := p.initiator_callbacks ++ [cb] } },
          [], .kDoNotSendAuthenticationRequest)
  else if m.state = .kFailed then
    some (m, [.status (.initiatorCallback cb) m.handle (.hostError .kCanceled)],
          .kDoNotSendAuthenticationRequest)
  else
    none

/-- `PairingState::OnIoCapabilityRequest` (pairing_state.cc lines 68-105).
`delegate` is `none` when `pairing_delegate()` is null, otherwise it carries
the delegate's IO capability (already converted by `IOCapabilityForHci`). -/
def OnIoCapabilityRequest (delegate : Option IOCapability) (m : PairingState) :
    Option (PairingState × List Effect × Option IOCapability) :=
  if m.state = .kInitiatorPairingStarted then
    if ¬ m.initiator then none
    else
      match delegate with
      | none => none
      | some cap =>
          some ({ m with
                    current_pairing := m.current_pairing.map fun p =>
                      { p with local_iocap := some cap }
                    state := .kInitiatorWaitIoCapResponse },
                [], some cap)
  else if m.state = .kResponderWaitIoCapRequest then
    if ¬ m.is_pairing then none
    else if m.initiator then none
    else
      match delegate with
      | none =>
          let r := SignalStatus (.hostError .kNotReady) { m with state := .kIdle }
          some (r.1, r.2, none)
      | some cap =>
          match m.current_pairing with
          | none => none
          | some p =>
              match Pairing.ComputePairingData { p with local_iocap := some cap } with
              | none => none
              | some p2 =>
                  match p2.expected_event with
                  | none => none
                  | some ev =>
                      some ({ m with current_pairing := some p2
                                     state := GetStateForPairingEvent ev },
                            [], some cap)
  else
    let r := FailWithUnexpectedEvent m
    some (r.1, r.2, none)

/-- `PairingState::OnIoCapabilityResponse` (pairing_state.cc lines 107-125). -/
def OnIoCapabilityResponse (peer_iocap : IOCapability) (m : PairingState) :
    Option (PairingState × List Effect) :=
  if m.state = .kIdle then
    if m.is_pairing then none
    else
      some ({ m with current_pairing := some (Pairing.MakeResponder peer_iocap)
                     state := .kResponderWaitIoCapRequest },
            [])
  else if m.state = .kInitiatorWaitIoCapResponse then
    if ¬ m.initiator then none
    else
      match m.current_pairing with
      | none => none
      | some p =>
          match Pairing.ComputePairingData { p with peer_iocap := some peer_iocap } with
          | none => none
          | some p2 =>
              match p2.expected_event with
              | none => none
              | some ev =>
                  some ({ m with current_pairing := some p2
                                 state := GetStateForPairingEvent ev },
                        [])
  else
    some (FailWithUnexpectedEvent m)

/-- `PairingState::OnUserConfirmationRequest` (pairing_state.cc lines
127-175).  In an illegal state the machine fails with NotSupported and then
still replies `false` on the event's callback.  In the legal state the action
routes to the delegate (comparison display or consent) or auto-confirms. -/
def OnUserConfirmationRequest (numeric_value : Nat) (delegate_present : Bool)
    (m : PairingState) : Option (PairingState × List Effect) :=
  if m.state ≠ .kWaitUserConfirmationRequest then
    let r := FailWithUnexpectedEvent m
    some (r.1, r.2 ++ [.confirmationReply false])
  else
    match m.current_pairing with
    | none => none
    | some p =>
        if ¬ delegate_present then none
        else
          let m2 : PairingState := { m with state := .kWaitPairingComplete }
          match p.action with
          | some a =>
              if a = .kDisplayPasskey ∨ a = .kComparePasskey then
                some (m2, [.delegateDisplayPasskey m.peer_id numeric_value
                             .kComparison])
              else if a = .kGetConsent then
                some (m2, [.delegateConfirmPairing m.peer_id])
              else if a = .kAutomatic then
                some (m2, [.confirmationReply true])
              else
                none
          | none => none

/-- `PairingState::OnUserPasskeyRequest` (pairing_state.cc lines 177-206). -/
def OnUserPasskeyRequest (delegate_present : Bool) (m : PairingState) :
    Option (PairingState × List Effect) :=
  if m.state ≠ .kWaitUserPasskeyRequest then
    let r := FailWithUnexpectedEvent m
    some (r.1, r.2 ++ [.passkeyReply none])
  else
    match m.current_pairing with
    | none => none
    | some p =>
        if ¬ delegate_present then none
        else if p.action = some .kRequestPasskey then
          some ({ m with state := .kWaitPairingComplete },
                [.delegateRequestPasskey m.peer_id])
        else
          none

/-- `PairingState::OnUserPasskeyNotification` (pairing_state.cc lines
208-229). -/
def OnUserPasskeyNotification (numeric_value : Nat) (delegate_present : Bool)
    (m : PairingState) : Option (PairingState × List Effect) :=
  if m.state ≠ .kWaitUserPasskeyNotification then
    some (FailWithUnexpectedEvent m)
  else if ¬ m.is_pairing then none
  else if ¬ delegate_present then none
  else
    some ({ m with state := .kWaitPairingComplete },
          [.delegateDisplayPasskey m.peer_id numeric_value .kPeerEntry])

/-- `PairingState::OnSimplePairingComplete` (pairing_state.cc lines 231-252).
On failure the delegate (if present) is told the pairing failed and the
machine fails with that status; on success the delegate is dereferenced
without a null check (abort if absent) and the machine waits for the link
key. -/
def OnSimplePairingComplete (status_code : Nat) (delegate_present : Bool)
    (m : PairingState) : Option (PairingState × List Effect) :=
  if m.state ≠ .kWaitPairingComplete then
    some (FailWithUnexpectedEvent m)
  else if ¬ m.is_pairing then none
  else if status_code ≠ 0 then
    let complete := if delegate_present
      then [Effect.delegateCompletePairing m.peer_id false] else []
    let r := SignalStatus (statusOf status_code) { m with state := .kFailed }
    some (r.1, complete ++ r.2)
  else if ¬ delegate_present then none
  else
    some ({ m with state := .kWaitLinkKey },
          [.delegateCompletePairing m.peer_id true])

/-- `PairingState::OnLinkKeyNotification` (pairing_state.cc lines 254-313).
`secProps` is the `sm::SecurityProperties` mapping (see `secPropsW`);
`start_encryption_ok` is what `link_->StartEncryption()` would return if
reached. -/
def OnLinkKeyNotification (secProps : LinkKeyType → SecurityProperties)
    (link_key : Nat) (key_type : LinkKeyType) (start_encryption_ok : Bool)
    (m : PairingState) : Option (PairingState × List Effect) :=
  if key_type = .kDebugCombination then none
  else if m.state = .kIdle ∧ key_type = .kChangedCombination then
    match m.link_ltk with
    | none =>
        some (SignalStatus (.hostError .kInsufficientSecurity)
                { m with state := .kFailed })
    | some _ => some ({ m with link_ltk := some (link_key, key_type) }, [])
  else if m.state ≠ .kWaitLinkKey then
    some (FailWithUnexpectedEvent m)
  else
    match m.current_pairing with
    | none => none
    | some p =>
        let sec_props := secProps key_type
        let m2 : PairingState :=
          { m with
              current_pairing := some ({ p with security_properties := some sec_props }) }
        if sec_props.level = .kNoSecurity then
          some (SignalStatus (.hostError .kInsufficientSecurity)
                  { m2 with state := .kFailed })
        else
          match p.authenticated with
          | none => none
          | some auth =>
              if sec_props.authenticated ≠ auth then
                some (SignalStatus (.hostError .kInsufficientSecurity)
                        { m2 with state := .kFailed })
              else
                let m3 : PairingState :=
                  { m2 with link_ltk := some (link_key, key_type) }
                if p.initiator then
                  some ({ m3 with state := .kInitiatorWaitAuthComplete }, [])
                else
                  some (EnableEncryption start_encryption_ok m3)

/-- `PairingState::OnAuthenticationComplete` (pairing_state.cc lines
315-331). -/
def OnAuthenticationComplete (status_code : Nat) (start_encryption_ok : Bool)
    (m : PairingState) : Option (PairingState × List Effect) :=
  if m.state ≠ .kInitiatorPairingStarted ∧ m.state ≠ .kInitiatorWaitAuthComplete then
    some (FailWithUnexpectedEvent m)
  else if ¬ m.initiator then none
  else if status_code ≠ 0 then
    some (SignalStatus (statusOf status_code) { m with state := .kFailed })
  else
    some (EnableEncryption start_encryption_ok m)

/-- `PairingState::OnEncryptionChange` (pairing_state.cc lines 333-361).
Never asserts: outside `kWaitEncryption` the event is ignored outright. -/
def OnEncryptionChange (st : Status) (enabled : Bool) (m : PairingState) :
    PairingState × List Effect :=
  if m.state ≠ .kWaitEncryption then (m, [])
  else
    let st2 := if st.isSuccess ∧ ¬ enabled then Status.hostError .kFailed else st
    if st2.isSuccess then SignalStatus st2 { m with state := .kIdle }
    else SignalStatus st2 { m with state := .kFailed }

/-- The signal a status effect went to, if it is a status effect. -/
def Effect.signalOf : Effect → Option Signal
  | .status sig _ _ => some sig
  | _ => none

/-- N consecutive `InitiatePairing` calls (the spec §8 coalescing scenario),
collecting the effects and the returned directives in order. -/
def InitiateAll (delegate_present : Bool) (cbs : List Nat) (m : PairingState) :
    Option (PairingState × List Effect × List InitiatorAction) :=
  match cbs with
  | [] => some (m, [], [])
  | cb :: rest =>
      match InitiatePairing delegate_present cb m with
      | none => none
      | some (m2, effs, act) =>
          match InitiateAll delegate_present rest m2 with
          | none => none
          | some (m3, effs2, acts) => some (m3, effs ++ effs2, act :: acts)

/-- Initial machine for the concrete runs: freshly constructed `PairingState`
(peer id 1, connection handle 5, `kIdle`, no pairing, no stored link key). -/
def traceStart : PairingState := ⟨1, 5, .kIdle, none, none⟩

/-- The Pairing after a full initiator capability exchange (both sides
DisplayYesNo), pairing completion, and an authenticated link key: exactly what
the run in `traceToWaitAuth` computes. -/
def pairingAfterLinkKey : Pairing :=
  { initiator := true
    local_iocap := some .kDisplayYesNo
    peer_iocap := some .kDisplayYesNo
    action := some .kDisplayPasskey
    expected_event := some kUserConfirmationRequestEventCode
    authenticated := some true
    security_properties := some ⟨true, .kAuthenticated⟩
    initiator_callbacks := [0] }

/-- Machine parked in `kInitiatorWaitAuthComplete` with one queued initiator
callback (tag 0), reached by `traceToWaitAuth`. -/
def mWaitAuth : PairingState :=
  ⟨1, 5, .kInitiatorWaitAuthComplete, some pairingAfterLinkKey,
   some (99, .kAuthenticatedCombination192)⟩

/-- Machine in `kFailed` with the Pairing (and its queued callback 0) still
alive: the configuration left behind when the link refuses to start
encryption. -/
def mFailedWithPairing : PairingState :=
  ⟨1, 5, .kFailed, some pairingAfterLinkKey,
   some (99, .kAuthenticatedCombination192)⟩

/-- A successful initiator negotiation up to authentication: initiate, local
and peer capabilities both DisplayYesNo, user confirmation, pairing complete,
authenticated link key.  Ends parked in `kInitiatorWaitAuthComplete`. -/
def traceToWaitAuth : Option PairingState :=
  (InitiatePairing true 0 traceStart).bind fun r1 =>
  (OnIoCapabilityRequest (some .kDisplayYesNo) r1.1).bind fun r2 =>
  (OnIoCapabilityResponse .kDisplayYesNo r2.1).bind fun r3 =>
  (OnUserConfirmationRequest 0 true r3.1).bind fun r4 =>
  (OnSimplePairingComplete 0 true r4.1).bind fun r5 =>
  (OnLinkKeyNotification secPropsW 99 .kAuthenticatedCombination192
      false r5.1).map fun r6 => r6.1

/-- Continuation of `traceToWaitAuth`: authentication succeeds but the link
refuses to start encryption (`StartEncryption()` returns false). -/
def traceToFailedWithPairing : Option PairingState :=
  traceToWaitAuth.bind fun m6 =>
  (OnAuthenticationComplete 0 false m6).map fun r7 => r7.1

/-- The initiator-action table exactly as the spec's §4.2 words it: the final
rule reads "else DisplayPasskey", with no Automatic case for a DisplayOnly
responder.  Written from the spec's words, to be compared with the source
function `GetInitiatorPairingAction`. -/
def specActionClaimed (initiator_cap responder_cap : IOCapability) :
    PairingAction :=
  if initiator_cap = .kNoInputNoOutput then
    .kAutomatic
  else if responder_cap = .kNoInputNoOutput then
    (if initiator_cap = .kDisplayYesNo then .kGetConsent else .kAutomatic)
  else if initiator_cap = .kKeyboardOnly then
    .kRequestPasskey
  else if responder_cap = .kDisplayOnly ∧ initiator_cap = .kDisplayYesNo then
    .kComparePasskey
  else
    .kDisplayPasskey

/-- The initiator-action table amended as the code forces: a DisplayOnly
responder with an initiator that is not DisplayYesNo (after the earlier rules,
only DisplayOnly remains) yields Automatic, and DisplayPasskey covers the rest. -/
def specActionAmended (initiator_cap responder_cap : IOCapability) :
    PairingAction :=
  if initiator_cap = .kNoInputNoOutput then
    .kAutomatic
  else if responder_cap = .kNoInputNoOutput then
    (if initiator_cap = .kDisplayYesNo then .kGetConsent else .kAutomatic)
  else if initiator_cap = .kKeyboardOnly then
    .kRequestPasskey
  else if responder_cap = .kDisplayOnly then
    (if initiator_cap = .kDisplayYesNo then .kComparePasskey else .kAutomatic)
  else
    .kDisplayPasskey

/-- The responder-action table from the spec's §4.2 words, delegating to the
amended initiator table with the roles swapped. -/
def specResponderAmended (initiator_cap responder_cap : IOCapability) :
    PairingAction :=
  if initiator_cap = .kNoInputNoOutput ∧ responder_cap = .kKeyboardOnly then
    .kGetConsent
  else if initiator_cap = .kDisplayYesNo ∧ responder_cap = .kDisplayYesNo then
    .kComparePasskey
  else
    specActionAmended responder_cap initiator_cap

/-- The expected-event table from the spec's §4.2 words. -/
def specExpectedEvent (local_cap peer_cap : IOCapability) : Nat :=
  if local_cap = .kNoInputNoOutput ∨ peer_cap = .kNoInputNoOutput then
    kUserConfirmationRequestEventCode
  else if local_cap = .kKeyboardOnly then
    kUserPasskeyRequestEventCode
  else if peer_cap = .kKeyboardOnly then
    kUserPasskeyNotificationEventCode
  else
    kUserConfirmationRequestEventCode

/-- The authenticated table from the spec's §4.2 words. -/
def specAuthenticated (local_cap peer_cap : IOCapability) : Bool :=
  if local_cap = .kNoInputNoOutput ∨ peer_cap = .kNoInputNoOutput then
    false
  else if local_cap = .kDisplayYesNo ∧ peer_cap = .kDisplayYesNo then
    true
  else if local_cap = .kKeyboardOnly ∨ peer_cap = .kKeyboardOnly then
    true
  else
    false

/-- C1 counterexample: for initiator DisplayOnly and responder DisplayOnly the
code returns `kAutomatic`, while the claim's table ("DisplayPasskey in every
remaining case") demands `kDisplayPasskey`. -/
theorem c1_counterexample :
    GetInitiatorPairingAction .kDisplayOnly .kDisplayOnly = .kAutomatic ∧
    specActionClaimed .kDisplayOnly .kDisplayOnly = .kDisplayPasskey ∧
    GetInitiatorPairingAction .kDisplayOnly .kDisplayOnly ≠
      specActionClaimed .kDisplayOnly .kDisplayOnly := by
  decide

/-- C1 (amended): over all 16 capability pairs the four pure decision
functions agree with the §4.2 tables, with the initiator-action table amended
so that a DisplayOnly responder facing a DisplayOnly initiator yields
Automatic (DisplayPasskey covers the remaining cases). -/
theorem c1_decision_tables (i r : IOCapability) :
    GetInitiatorPairingAction i r = specActionAmended i r ∧
    GetResponderPairingAction i r = specResponderAmended i r ∧
    GetExpectedEvent i r = specExpectedEvent i r ∧
    IsPairingAuthenticated i r = specAuthenticated i r := by
  cases i <;> cases r <;> exact ⟨rfl, rfl, rfl, rfl⟩

/-- C5: for every capability pair, the state implied by the expected event is
one of the three real waiting states and never `kFailed`. -/
theorem c5_expected_event_is_real_wait_state (lc pc : IOCapability) :
    (GetStateForPairingEvent (GetExpectedEvent lc pc) =
        .kWaitUserConfirmationRequest ∨
      GetStateForPairingEvent (GetExpectedEvent lc pc) =
        .kWaitUserPasskeyRequest ∨
      GetStateForPairingEvent (GetExpectedEvent lc pc) =
        .kWaitUserPasskeyNotification) ∧
    GetStateForPairingEvent (GetExpectedEvent lc pc) ≠ .kFailed := by
  cases lc <;> cases pc <;> decide

/-- C5 witness: the property evaluated at a concrete capability pair. -/
theorem c5_expected_event_is_real_wait_state_witness :
    GetStateForPairingEvent (GetExpectedEvent .kDisplayOnly .kKeyboardOnly) ≠
      State.kFailed :=
  (c5_expected_event_is_real_wait_state .kDisplayOnly .kKeyboardOnly).2

/-- C8: `InitiatePairing` with no delegate attached invokes the caller's
callback with NotReady immediately, returns the do-not-send directive, and
leaves the machine (state, Pairing, link key) untouched. -/
theorem c8_no_delegate_guard (cb : Nat) (m : PairingState) :
    InitiatePairing false cb m =
      some (m,
        [.status (.initiatorCallback cb) m.handle (.hostError .kNotReady)],
        .kDoNotSendAuthenticationRequest) := by
  rfl

/-- C9: `SignalStatus` discards the current Pairing (so `is_pairing()` is
false in the machine the callbacks observe) and invokes the fixed top-level
callback first, then each queued initiator callback in arrival order, all with
the identical status and the captured link handle. -/
theorem c9_signal_status_structure (st : Status) (pid h : Nat) (s : State)
    (p : Pairing) (ltk : Option (Nat × LinkKeyType)) :
    SignalStatus st ⟨pid, h, s, some p, ltk⟩ =
      (⟨pid, h, s, none, ltk⟩,
       Effect.status .statusCallback h st ::
         p.initiator_callbacks.map
           fun cb => Effect.status (.initiatorCallback cb) h st) := by
  rfl

/-- Updating only the `state` field leaves the queued callbacks unchanged. -/
@[simp]
theorem pairingCallbacks_set_state (m : PairingState) (s : State) :
    pairingCallbacks { m with state := s } = pairingCallbacks m := rfl

/-- C2: a link-key notification in `kWaitLinkKey` whose key type maps to an
authenticated-ness different from the flag computed during the capability
exchange drives the machine to `kFailed`, signals InsufficientSecurity to the
top-level callback and every queued initiator callback, and does not store the
key on the link. -/
theorem c2_link_key_auth_mismatch (secProps : LinkKeyType → SecurityProperties)
    (link_key : Nat) (kt : LinkKeyType) (ok : Bool) (pid h : Nat) (p : Pairing)
    (ltk : Option (Nat × LinkKeyType)) (b : Bool)
    (hdbg : kt ≠ .kDebugCombination)
    (hauth : p.authenticated = some b)
    (hmis : (secProps kt).authenticated ≠ b) :
    OnLinkKeyNotification secProps link_key kt ok
        ⟨pid, h, .kWaitLinkKey, some p, ltk⟩ =
      some (⟨pid, h, .kFailed, none, ltk⟩,
            signalEffects h p.initiator_callbacks
              (.hostError .kInsufficientSecurity)) := by
  by_cases hl : (secProps kt).level = SecurityLevel.kNoSecurity <;>
    simp [OnLinkKeyNotification, SignalStatus, pairingCallbacks, hdbg, hauth,
          hmis, hl]

/-- C2 witness: a concrete mismatch (key reported unauthenticated while the
exchange computed authenticated) at a concrete machine. -/
theorem c2_link_key_auth_mismatch_witness :
    OnLinkKeyNotification secPropsW 42 .kUnauthenticatedCombination192 true
        ⟨1, 5, .kWaitLinkKey, some pairingAfterLinkKey, none⟩ =
      some (⟨1, 5, .kFailed, none, none⟩,
            signalEffects 5 pairingAfterLinkKey.initiator_callbacks
              (.hostError .kInsufficientSecurity)) :=
  c2_link_key_auth_mismatch secPropsW 42 .kUnauthenticatedCombination192 true
    1 5 pairingAfterLinkKey none true (by decide) rfl (by decide)

/-- C6: an encryption change in `kWaitEncryption` maps success+enabled to
`kIdle` with a success signal, success+disabled to `kFailed` with the generic
failure signal, and an error to `kFailed` signaling that error; in any other
state the event is ignored and the machine is unchanged. -/
theorem c6_encryption_change (st : Status) (en : Bool) (m : PairingState) :
    (m.state ≠ .kWaitEncryption → OnEncryptionChange st en m = (m, [])) ∧
    (m.state = .kWaitEncryption → st = .success → en = true →
      OnEncryptionChange st en m =
        ({ m with state := .kIdle, current_pairing := none },
         signalEffects m.handle (pairingCallbacks m) .success)) ∧
    (m.state = .kWaitEncryption → st = .success → en = false →
      OnEncryptionChange st en m =
        ({ m with state := .kFailed, current_pairing := none },
         signalEffects m.handle (pairingCallbacks m) (.hostError .kFailed))) ∧
    (m.state = .kWaitEncryption → st.isSuccess = false →
      OnEncryptionChange st en m =
        ({ m with state := .kFailed, current_pairing := none },
         signalEffects m.handle (pairingCallbacks m) st)) := by
  refine ⟨fun hs => ?_, fun hs hst hen => ?_, fun hs hst hen => ?_,
          fun hs hst => ?_⟩
  · simp [OnEncryptionChange, hs]
  · subst hst hen
    simp [OnEncryptionChange, hs, Status.isSuccess, SignalStatus]
  · subst hst hen
    simp [OnEncryptionChange, hs, Status.isSuccess, SignalStatus]
  · simp [OnEncryptionChange, hs, hst, SignalStatus]

/-- C6 witness: concrete evaluations of two of the clauses (an ignored
encryption change in `kIdle`, and a success+disabled change in
`kWaitEncryption`). -/
theorem c6_encryption_change_witness :
    OnEncryptionChange .success false traceStart = (traceStart, []) ∧
    OnEncryptionChange .success false
        ⟨1, 5, .kWaitEncryption, some pairingAfterLinkKey, none⟩ =
      (⟨1, 5, .kFailed, none, none⟩,
       signalEffects 5 [0] (.hostError .kFailed)) :=
  ⟨(c6_encryption_change .success false traceStart).1 (by decide),
   (c6_encryption_change .success false
      ⟨1, 5, .kWaitEncryption, some pairingAfterLinkKey, none⟩).2.2.1
     rfl rfl rfl⟩

/-- C7 counterexample: the no-delegate configuration in
`kInitiatorPairingStarted` is reachable (delegate present at initiation, reset
afterwards), and there `OnIoCapabilityRequest` aborts on
`ZX_ASSERT_MSG(pairing_delegate(), ...)` (modelled as `none`) instead of
failing with NotReady and resetting to `kIdle` as the claim states. -/
theorem c7_counterexample :
    InitiatePairing true 0 traceStart =
      some (⟨1, 5, .kInitiatorPairingStarted, some (Pairing.MakeInitiator 0),
             none⟩,
            [], .kSendAuthenticationRequest) ∧
    OnIoCapabilityRequest none
        ⟨1, 5, .kInitiatorPairingStarted, some (Pairing.MakeInitiator 0),
         none⟩ = none := by
  exact ⟨rfl, rfl⟩

/-- C7 (amended): the no-delegate NotReady path of `OnIoCapabilityRequest`
belongs to `kResponderWaitIoCapRequest`: there the negotiation fails with
NotReady, the machine resets to `kIdle`, and no IO capability is returned.
In `kInitiatorPairingStarted` with no delegate the code instead asserts that
the delegate is still present, i.e. aborts. -/
theorem c7_no_delegate_io_cap_request (pid h : Nat) (p : Pairing)
    (ltk : Option (Nat × LinkKeyType)) :
    (p.initiator = false →
      OnIoCapabilityRequest none
          ⟨pid, h, .kResponderWaitIoCapRequest, some p, ltk⟩ =
        some (⟨pid, h, .kIdle, none, ltk⟩,
              signalEffects h p.initiator_callbacks (.hostError .kNotReady),
              none)) ∧
    (p.initiator = true →
      OnIoCapabilityRequest none
          ⟨pid, h, .kInitiatorPairingStarted, some p, ltk⟩ = none) := by
  constructor <;> intro hrole <;>
    simp [OnIoCapabilityRequest, PairingState.is_pairing,
          PairingState.initiator, SignalStatus, pairingCallbacks, hrole]

/-- C7 witness: both clauses at concrete machines. -/
theorem c7_no_delegate_io_cap_request_witness :
    OnIoCapabilityRequest none
        ⟨1, 5, .kResponderWaitIoCapRequest,
         some (Pairing.MakeResponder .kDisplayYesNo), none⟩ =
      some (⟨1, 5, .kIdle, none, none⟩,
            signalEffects 5 [] (.hostError .kNotReady), none) ∧
    OnIoCapabilityRequest none
        ⟨1, 5, .kInitiatorPairingStarted, some (Pairing.MakeInitiator 3),
         none⟩ = none :=
  ⟨(c7_no_delegate_io_cap_request 1 5 (Pairing.MakeResponder .kDisplayYesNo)
      none).1 rfl,
   (c7_no_delegate_io_cap_request 1 5 (Pairing.MakeInitiator 3) none).2 rfl⟩

/-- C10: event handlers that carry a controller reply callback still answer it
negatively when the event is illegal for the current state: a user
confirmation request outside `kWaitUserConfirmationRequest` replies `false`,
and a user passkey request outside `kWaitUserPasskeyRequest` replies with no
value, in both cases after the NotSupported failure signaling. -/
theorem c10_illegal_event_replies (num : Nat) (dp : Bool) (m : PairingState) :
    (m.state ≠ .kWaitUserConfirmationRequest →
      OnUserConfirmationRequest num dp m =
        some ({ m with state := .kFailed, current_pairing := none },
              signalEffects m.handle (pairingCallbacks m)
                  (.hostError .kNotSupported) ++
                [.confirmationReply false])) ∧
    (m.state ≠ .kWaitUserPasskeyRequest →
      OnUserPasskeyRequest dp m =
        some ({ m with state := .kFailed, current_pairing := none },
              signalEffects m.handle (pairingCallbacks m)
                  (.hostError .kNotSupported) ++
                [.passkeyReply none])) := by
  constructor <;> intro hs <;>
    simp [OnUserConfirmationRequest, OnUserPasskeyRequest,
          FailWithUnexpectedEvent, SignalStatus, hs]

/-- C10 witness: both clauses at a concrete idle machine. -/
theorem c10_illegal_event_replies_witness :
    OnUserConfirmationRequest 9 true traceStart =
      some ({ traceStart with state := .kFailed, current_pairing := none },
            signalEffects traceStart.handle (pairingCallbacks traceStart)
                (.hostError .kNotSupported) ++
              [.confirmationReply false]) ∧
    OnUserPasskeyRequest true traceStart =
      some ({ traceStart with state := .kFailed, current_pairing := none },
            signalEffects traceStart.handle (pairingCallbacks traceStart)
                (.hostError .kNotSupported) ++
              [.passkeyReply none]) :=
  ⟨(c10_illegal_event_replies 9 true traceStart).1 (by decide),
   (c10_illegal_event_replies 9 true traceStart).2 (by decide)⟩

/-- C3 counterexample: a reachable run (success up to authentication, then
the link refuses `StartEncryption()`) whose terminal failure invokes only the
top-level status callback — the signals of the produced effect list are
exactly `[statusCallback]`, which does not include the queued initiator
callback 0 — and the Pairing survives, so not every waiting party is
notified. -/
theorem c3_counterexample :
    traceToWaitAuth = some mWaitAuth ∧
    pairingCallbacks mWaitAuth = [0] ∧
    OnAuthenticationComplete 0 false mWaitAuth =
      some (mFailedWithPairing,
            [.status .statusCallback 5 (.hostError .kFailed)]) ∧
    mFailedWithPairing.current_pairing = some pairingAfterLinkKey ∧
    ([Effect.status Signal.statusCallback 5 (Status.hostError .kFailed)].map
        Effect.signalOf = [some Signal.statusCallback]) ∧
    Signal.statusCallback ≠ Signal.initiatorCallback 0 := by
  refine ⟨rfl, rfl, rfl, rfl, rfl, fun h => Signal.noConfusion h⟩

/-- C3 (amended): failures signaled through `SignalStatus` notify the fixed
top-level callback and every queued initiator callback exactly once, in
order, all with the identical status and handle; but when the link refuses to
start encryption, `EnableEncryption` invokes only the top-level callback with
the generic failure, enters `kFailed`, and leaves the Pairing and its queued
callbacks behind unsignaled. -/
theorem c3_signal_path (pid h : Nat) (s : State) (p : Pairing)
    (ltk : Option (Nat × LinkKeyType)) (st : Status) :
    (EnableEncryption false ⟨pid, h, s, some p, ltk⟩ =
      (⟨pid, h, .kFailed, some p, ltk⟩,
       [.status .statusCallback h (.hostError .kFailed)])) ∧
    (∀ e ∈ (SignalStatus st ⟨pid, h, s, some p, ltk⟩).2,
      ∃ sig, e = .status sig h st) ∧
    ((SignalStatus st ⟨pid, h, s, some p, ltk⟩).2.map Effect.signalOf =
      some Signal.statusCallback ::
        p.initiator_callbacks.map fun cb => some (Signal.initiatorCallback cb)) := by
  refine ⟨rfl, ?_, ?_⟩
  · intro e he
    simp only [SignalStatus, signalEffects, pairingCallbacks,
               List.mem_cons, List.mem_map] at he
    rcases he with rfl | ⟨cb, _, rfl⟩
    · exact ⟨.statusCallback, rfl⟩
    · exact ⟨.initiatorCallback cb, rfl⟩
  · simp [SignalStatus, signalEffects, pairingCallbacks, Effect.signalOf,
          Function.comp]

/-- C3 witness: the `SignalStatus` clauses evaluated on a concrete machine
with one queued callback. -/
theorem c3_signal_path_witness :
    (∃ sig, Effect.status Signal.statusCallback 5 Status.success =
      Effect.status sig 5 Status.success) ∧
    ((SignalStatus .success ⟨1, 5, .kWaitEncryption, some pairingAfterLinkKey,
        none⟩).2.map Effect.signalOf =
      [some Signal.statusCallback, some (Signal.initiatorCallback 0)]) :=
  ⟨(c3_signal_path 1 5 .kWaitEncryption pairingAfterLinkKey none
      .success).2.1
     (Effect.status Signal.statusCallback 5 Status.success)
     (List.mem_cons_self _ _),
   (c3_signal_path 1 5 .kWaitEncryption pairingAfterLinkKey none
      .success).2.2⟩

/-- Helper for C4: once a pairing is in flight in `kInitiatorPairingStarted`,
each further `InitiatePairing` call appends its callback to the one Pairing,
produces no immediate invocation, and returns the do-not-send directive. -/
theorem InitiateAll_enqueue (cbs : List Nat) (pid h : Nat) (p : Pairing)
    (ltk : Option (Nat × LinkKeyType)) :
    InitiateAll true cbs ⟨pid, h, .kInitiatorPairingStarted, some p, ltk⟩ =
      some (⟨pid, h, .kInitiatorPairingStarted,
             some ({ p with
                initiator_callbacks := p.initiator_callbacks ++ cbs }), ltk⟩,
            [], cbs.map fun _ => .kDoNotSendAuthenticationRequest) := by
  induction cbs generalizing p with
  | nil => simp [InitiateAll]
  | cons c rest ih =>
      simp only [InitiateAll, InitiatePairing, PairingState.is_pairing]
      simp [ih ({ p with initiator_callbacks := p.initiator_callbacks ++ [c] })]

/-- C4 counterexample: after the reachable encryption-start refusal the
machine is in `kFailed` but still owns the Pairing, and an `InitiatePairing`
call there enqueues its callback (returning no effect at all) instead of
immediately invoking it with Canceled as the claim states. -/
theorem c4_counterexample :
    traceToFailedWithPairing = some mFailedWithPairing ∧
    mFailedWithPairing.state = .kFailed ∧
    InitiatePairing true 1 mFailedWithPairing =
      some ({ mFailedWithPairing with
                current_pairing := some ({ pairingAfterLinkKey with
                  initiator_callbacks := [0, 1] }) },
            [], .kDoNotSendAuthenticationRequest) := by
  refine ⟨rfl, rfl, rfl⟩

/-- C4 (amended): N consecutive `InitiatePairing` calls on an idle machine
with a delegate yield SendAuthenticationRequest for the first caller only,
enqueue the other callbacks on the single Pairing with no intermediate
invocations, and a termination that goes through `SignalStatus` fires all N
callbacks with the identical status; an `InitiatePairing` call in `kFailed`
with no surviving Pairing invokes its own callback with Canceled and changes
nothing else (with a surviving Pairing, after an encryption-start refusal,
the callback is enqueued instead). -/
theorem c4_coalescing (cb : Nat) (cbs : List Nat) (pid h : Nat)
    (ltk : Option (Nat × LinkKeyType)) :
    (InitiateAll true (cb :: cbs) ⟨pid, h, .kIdle, none, ltk⟩ =
      some (⟨pid, h, .kInitiatorPairingStarted,
             some ({ Pairing.MakeInitiator cb with
                initiator_callbacks := cb :: cbs }), ltk⟩,
            [], .kSendAuthenticationRequest ::
                  cbs.map fun _ => .kDoNotSendAuthenticationRequest)) ∧
    (∀ st : Status,
      SignalStatus st ⟨pid, h, .kFailed,
          some ({ Pairing.MakeInitiator cb with
            initiator_callbacks := cb :: cbs }), ltk⟩ =
        (⟨pid, h, .kFailed, none, ltk⟩, signalEffects h (cb :: cbs) st)) ∧
    (∀ cb2 : Nat, ∀ mf : PairingState,
      mf.state = .kFailed → mf.current_pairing = none →
      InitiatePairing true cb2 mf =
        some (mf,
          [.status (.initiatorCallback cb2) mf.handle (.hostError .kCanceled)],
          .kDoNotSendAuthenticationRequest)) := by
  refine ⟨?_, fun st => rfl, fun cb2 mf hs hp => ?_⟩
  · simp only [InitiateAll, InitiatePairing, PairingState.is_pairing]
    simp [InitiateAll_enqueue, Pairing.MakeInitiator]
  · simp [InitiatePairing, PairingState.is_pairing, hs, hp]

/-- C4 witness: three concurrent initiate calls on an idle machine, and a
canceled call on a pairing-free failed machine. -/
theorem c4_coalescing_witness :
    (InitiateAll true [0, 1, 2] ⟨1, 5, .kIdle, none, none⟩ =
      some (⟨1, 5, .kInitiatorPairingStarted,
             some ({ Pairing.MakeInitiator 0 with
                initiator_callbacks := [0, 1, 2] }), none⟩,
            [], [.kSendAuthenticationRequest, .kDoNotSendAuthenticationRequest,
                 .kDoNotSendAuthenticationRequest])) ∧
    InitiatePairing true 7 ⟨1, 5, .kFailed, none, none⟩ =
      some (⟨1, 5, .kFailed, none, none⟩,
        [.status (.initiatorCallback 7) 5 (.hostError .kCanceled)],
        .kDoNotSendAuthenticationRequest) :=
  ⟨by simpa using (c4_coalescing 0 [1, 2] 1 5 none).1,
   (c4_coalescing 0 [1, 2] 1 5 none).2.2 7 ⟨1, 5, .kFailed, none, none⟩
     rfl rfl⟩

end BtGap
